import Mathlib

/-!
Verification of the GeoMagCpp IGRF field engine (GeoMag/src/Model.hpp,
GeoMag/src/Igrf.hpp, GeoMag/src/GeoMagFlux.hpp) against its specification.

Shallow embedding conventions:
* C++ `double` values are modelled as real numbers (`ℝ`).
* The calendar/epoch type `DateTime` lives in DateTime.hpp, which is not part
  of the staged sources; it is modelled from the spec ("calendar/epoch
  arithmetic type (assumed to expose a 'fractional year' and ordering)").
* Exceptions become `Except GeoMagError`; the one out-of-bounds read in
  `ModelSet::select` (dereferencing `it - 1` when `it == begin()`) is not an
  exception in the C++ but undefined behaviour, and is surfaced as the
  dedicated error value `GeoMagError.ubRead`.
* `std::array<double, N>` coefficient storage is modelled as a function
  `ℕ → ℝ`; the program only ever touches indices `< Model.max_coefficient_size`.
-/

namespace GeoMag

/-- Modelled from the spec: `DateTime` (DateTime.hpp is not among the staged
sources).  The spec's §1 says the epoch type exposes a fractional year and an
ordering.  A calendar datetime is modelled by its calendar year together with
the fractional part of the year elapsed since January 1; for every datetime
the intended range is `0 ≤ frac < 1`, and `DateTime(y, 1)` (January 1 of year
`y`) has `frac = 0`. -/
structure DateTime where
  year : ℤ
  frac : ℚ
deriving DecidableEq

/-- Modelled from the spec: `DateTime::fractionalYears()`, the fractional
year of a calendar datetime (`year` plus the elapsed fraction of the year). -/
def DateTime.fractionalYears (d : DateTime) : ℚ := (d.year : ℚ) + d.frac

/-- Modelled from the spec: `DateTime::DateTime()` default-constructs some
fixed datetime; its value is never observed by the engine. -/
def DateTime.defaultValue : DateTime := ⟨0, 0⟩

/-- Modelled from the spec: ordering of `DateTime` values, by fractional year. -/
def DateTime.lt (a b : DateTime) : Prop := a.fractionalYears < b.fractionalYears

instance (a b : DateTime) : Decidable (DateTime.lt a b) :=
  inferInstanceAs (Decidable (a.fractionalYears < b.fractionalYears))

/-- Model.hpp line 29: `enum class ModelType`. -/
inductive ModelType where
  | Unknown
  | Dgrf
  | Igrf
  | Sv
  | Interpolated
  | Extrapolated
deriving DecidableEq

/-- Model.hpp line 44: `static constexpr std::size_t max_degree = 13`. -/
def max_degree : ℕ := 13

/-- Model.hpp line 45: `static constexpr std::size_t max_order = 13`. -/
def max_order : ℕ := 13

/-- Model.hpp line 46:
`static constexpr std::size_t max_coefficient_size = (max_degree * (max_degree + 2) + 1)`. -/
def max_coefficient_size : ℕ := max_degree * (max_degree + 2) + 1

/-- Model.hpp line 43: `struct Model`.  The coefficient array
`std::array<double, max_coefficient_size>` is modelled as a function `ℕ → ℝ`;
only indices `< max_coefficient_size` are ever used by the program. -/
structure Model where
  epoch : DateTime
  type : ModelType
  coefficients : ℕ → ℝ

/-- Model.hpp line 52: `Model()` default constructor — `epoch()`,
`ModelType::Unknown`, `coefficients{0}`. -/
noncomputable def Model.defaultValue : Model := ⟨DateTime.defaultValue, ModelType.Unknown, fun _ => 0⟩

/-- Model.hpp line 61: `class ModelSet`, a wrapper around
`std::vector<Model> m_models`. -/
structure ModelSet where
  m_models : List Model

/-- The error taxonomy of the engine (spec §7).  `emptyTable` and
`noBracketFound` are the two `std::runtime_error`s of `ModelSet::select`
(Model.hpp lines 100 and 107); `invalidCoordinateKind` is the
`std::runtime_error` of `Igrf::calculateMagDensity` (Igrf.hpp line 185);
`ubRead` is not an exception of the C++ at all: it marks the undefined
out-of-bounds read `last = *(it - 1)` that `select` performs when
`it == m_models.begin()` (Model.hpp line 109). -/
inductive GeoMagError where
  | emptyTable
  | noBracketFound
  | invalidCoordinateKind
  | ubRead
deriving DecidableEq

/-- Model.hpp lines 103-104: the `std::lower_bound` call of
`ModelSet::select` with comparator `m.epoch < dt` — the index of the first
model for which the comparator is false, `¬ DateTime.lt m.epoch dt`, written
here in the equivalent form `dt ≤ m.epoch` over fractional years
(`m_models.size()` when the comparator holds everywhere, like `end()`). -/
def lowerBoundIdx (models : List Model) (dt : DateTime) : ℕ :=
  models.findIdx fun m => decide (dt.fractionalYears ≤ m.epoch.fractionalYears)

/-- Model.hpp lines 98-113: `ModelSet::select(dt, last, next)`.
`.error .emptyTable` and `.error .noBracketFound` are the two thrown
`std::runtime_error`s; when the lower bound is `begin()` the C++ executes
`last = *(it - 1)`, an out-of-bounds read (undefined behaviour, no check, no
exception), surfaced here as `.error .ubRead`; otherwise the bracketing pair
`(last, next) = (models[i-1], models[i])` is returned. -/
noncomputable def ModelSet.select (ms : ModelSet) (dt : DateTime) : Except GeoMagError (Model × Model) :=
  if ms.m_models.isEmpty then
    .error .emptyTable
  else
    let i := lowerBoundIdx ms.m_models dt
    if i = ms.m_models.length then
      .error .noBracketFound
    else if i = 0 then
      .error .ubRead
    else
      .ok (ms.m_models.getD (i - 1) Model.defaultValue, ms.m_models.getD i Model.defaultValue)

/-- Igrf.hpp lines 101-105: `Igrf::interpolateModel` — the coefficient array
written into the working model: per coefficient
`a + diff * (b - a)` with
`diff = (dt.fractionalYears() - last.epoch.year()) / (next.epoch.year() - last.epoch.year())`
(note: the snapshot epochs enter through their calendar `year()`, not their
fractional years). -/
noncomputable def interpolateModel (dt : DateTime) (last next : Model) : ℕ → ℝ :=
  fun i =>
    let diff : ℝ :=
      ((dt.fractionalYears : ℝ) - (last.epoch.year : ℝ)) /
        ((next.epoch.year : ℝ) - (last.epoch.year : ℝ))
    last.coefficients i + diff * (next.coefficients i - last.coefficients i)

/-- Igrf.hpp lines 115-120: `Igrf::extrapolateModel` — per coefficient
`a + diff * b` with `diff = dt.fractionalYears() - last.epoch.year()`. -/
noncomputable def extrapolateModel (dt : DateTime) (last next : Model) : ℕ → ℝ :=
  fun i =>
    let diff : ℝ := (dt.fractionalYears : ℝ) - (last.epoch.year : ℝ)
    last.coefficients i + diff * next.coefficients i

/-- Igrf.hpp lines 127-143: `Igrf::initializeModel` — select the bracketing
pair, then interpolate (tag `Interpolated`) unless the upper model is a
secular-variation model, in which case extrapolate (tag `Extrapolated`);
either way the working model's epoch becomes `dt`. -/
noncomputable def initializeModel (ms : ModelSet) (dt : DateTime) : Except GeoMagError Model :=
  match ms.select dt with
  | .error e => .error e
  | .ok (last, next) =>
      if next.type ≠ ModelType.Sv then
        .ok ⟨dt, ModelType.Interpolated, interpolateModel dt last next⟩
      else
        .ok ⟨dt, ModelType.Extrapolated, extrapolateModel dt last next⟩

/-- Coordinate kinds accepted by `Igrf::calculateMagDensity` (Igrf.hpp lines
165-186): geocentric spherical, WGS84 geodetic, and anything else (the final
`else` throws).  The coordinate classes live in Coordinate.hpp, which is not
among the staged sources; the spec's §1 reduces a position to "a coordinate
tag ∈ {GeocentricSpherical, Geodetic}, and three scalars (altitude-or-radius,
longitude, latitude)". -/
inductive CoordinateType where
  | GeocentricSpherical
  | Wgs84
  | Unrecognized
deriving DecidableEq

/-- Modelled from the spec: a position as the engine consumes it — a
coordinate tag and three scalars; `altitude` is the radius for geocentric
spherical input and the ellipsoidal height for geodetic input, and the two
angles are in radians (`position.elements()` accessors, Igrf.hpp lines
157-159). -/
structure Position where
  ctype : CoordinateType
  altitude : ℝ
  longitude : ℝ
  latitude : ℝ

/-- Modelled from the spec: `constant::wgs84_a` (Essential.hpp is not among
the staged sources) — the WGS84 equatorial semi-major axis in metres. -/
noncomputable def wgs84_a : ℝ := 6378137

/-- Modelled from the spec: `constant::wgs84_b` (Essential.hpp is not among
the staged sources) — the WGS84 polar semi-minor axis in metres. -/
noncomputable def wgs84_b : ℝ := 6356752.314245

/-- Igrf.hpp line 155: `constexpr double earth_radius = 6371.2e3` — the IGRF
reference radius in metres. -/
noncomputable def earth_radius : ℝ := 6371200

/-- The geocentric-spherical data `Igrf::calculateMagDensity` works with
after its coordinate normalisation (Igrf.hpp lines 157-186): the geocentric
radius `r`, the cosine/sine of the geocentric colatitude (the locals
`cos_theta` / `sin_theta`), and the cosine/sine of the frame-rotation angle
(the locals `cos_delta` / `sin_delta`). -/
structure NormalizedPosition where
  r : ℝ
  cos_theta : ℝ
  sin_theta : ℝ
  cos_delta : ℝ
  sin_delta : ℝ

/-- Igrf.hpp lines 157-186: the coordinate-normalisation prefix of
`Igrf::calculateMagDensity`.  `cos_theta = sin(latitude)` and
`sin_theta = cos(latitude)` turn the latitude into colatitude data; a
geocentric position passes through with `cos_delta = 1`, `sin_delta = 0`; a
WGS84 geodetic position gets the closed-form oblate-spheroid correction of
lines 169-183; any other tag throws (`.error .invalidCoordinateKind`). -/
noncomputable def normalizePosition (pos : Position) : Except GeoMagError NormalizedPosition :=
  let r0 := pos.altitude
  let cos_theta := Real.sin pos.latitude
  let sin_theta := Real.cos pos.latitude
  match pos.ctype with
  | .GeocentricSpherical => .ok ⟨r0, cos_theta, sin_theta, 1, 0⟩
  | .Wgs84 =>
      let aa := wgs84_a * wgs84_a
      let bb := wgs84_b * wgs84_b
      let h := r0
      let a2sint2 := aa * sin_theta * sin_theta
      let b2cost2 := bb * cos_theta * cos_theta
      let rho2 := a2sint2 + b2cost2
      let rho := Real.sqrt rho2
      let r := Real.sqrt ((aa * a2sint2 + bb * b2cost2) / rho2 + r0 * r0 + 2 * r0 * rho)
      let cos_delta := (h + rho) / r
      let sin_delta := (aa - bb) / rho * sin_theta * cos_theta / r
      let cos_theta_gd := cos_theta
      .ok ⟨r, cos_theta_gd * cos_delta - sin_theta * sin_delta,
           sin_theta * cos_delta + cos_theta_gd * sin_delta, cos_delta, sin_delta⟩
  | .Unrecognized => .error .invalidCoordinateKind

/-- Igrf.hpp lines 190-193: the precomputed `cos_phi` array —
`cos_phi[m - 1] = cos(m * phi)`, stored here as a function of the array
index `i = m - 1`. -/
noncomputable def cosPhi (phi : ℝ) (i : ℕ) : ℝ := Real.cos ((i + 1 : ℕ) * phi)

/-- Igrf.hpp lines 190-193: the precomputed `sin_phi` array —
`sin_phi[m - 1] = sin(m * phi)`. -/
noncomputable def sinPhi (phi : ℝ) (i : ℕ) : ℝ := Real.sin ((i + 1 : ℕ) * phi)

/-- Igrf.hpp line 218: the diagonal recurrence factor
`std::sqrt(1 - 1 / (double)(2 * m))`. -/
noncomputable def cofDiag (m : ℕ) : ℝ := Real.sqrt (1 - 1 / (2 * m : ℕ))

/-- Igrf.hpp line 224: the off-diagonal factor
`(2 * n - 1) / std::sqrt(n * n - m * m)` (integer arithmetic inside the
square root; at every use `m < n`, so the natural subtraction matches). -/
noncomputable def cofLeft (n m : ℕ) : ℝ := ((2 * n - 1 : ℕ) : ℝ) / Real.sqrt ((n * n - m * m : ℕ))

/-- Igrf.hpp line 225: the off-diagonal factor
`std::sqrt((n - 1) * (n - 1) - m * m) / std::sqrt(n * n - m * m)` (at every
use `m ≤ n - 1`, so the natural subtraction matches). -/
noncomputable def cofRight (n m : ℕ) : ℝ :=
  Real.sqrt (((n - 1) * (n - 1) - m * m : ℕ)) / Real.sqrt ((n * n - m * m : ℕ))

/-- Igrf.hpp lines 195-228: the Schmidt quasi-normalised associated Legendre
values that the loop stores in the linearly packed array `p`
(`p[n * (n + 1) / 2 + m] = legP st ct n m`, where `st`/`ct` are the loop's
`sin_theta`/`cos_theta`).  Seeds: `p[0] = 1` (line 198) and `p[2] = sin_theta`
(line 199, packed index of (1,1)).  Diagonal entries (line 219) use
`cofDiag`; other entries (line 226) use `cofLeft`/`cofRight` reading the
packed indices `p_idx - n - 1` and `p_idx - 2 * n`.  For `m = n - 1` the
latter packed index is that of `(n - 1, 0)` — the code reads that slot and
multiplies it by `cofRight n (n - 1) = 0`; the branch below reproduces the
read faithfully. -/
noncomputable def legP (st ct : ℝ) (n m : ℕ) : ℝ :=
  if _h0 : n = 0 then 1
  else if _h1 : n = 1 ∧ m = 1 then st
  else if _h2 : n = m then cofDiag m * st * legP st ct (n - 1) (n - 1)
  else
    cofLeft n m * ct * legP st ct (n - 1) m -
      cofRight n m * (if m + 1 = n then legP st ct (n - 1) 0 else legP st ct (n - 2) m)
termination_by n
decreasing_by all_goals omega

/-- Igrf.hpp lines 196-227: the colatitude derivatives stored in the packed
array `d_p`, with the same packing and the same index aliasing as `legP`.
Seeds: `d_p[0] = 0` (line 200), `d_p[2] = cos_theta` (line 201); diagonal
entries from line 220, other entries from line 227. -/
noncomputable def legDP (st ct : ℝ) (n m : ℕ) : ℝ :=
  if _h0 : n = 0 then 0
  else if _h1 : n = 1 ∧ m = 1 then ct
  else if _h2 : n = m then
    cofDiag m * (st * legDP st ct (n - 1) (n - 1) + ct * legP st ct (n - 1) (n - 1))
  else
    cofLeft n m * (ct * legDP st ct (n - 1) m - st * legP st ct (n - 1) m) -
      cofRight n m * (if m + 1 = n then legDP st ct (n - 1) 0 else legDP st ct (n - 2) m)
termination_by n
decreasing_by all_goals omega

/-- Igrf.hpp line 195: `p_size = (max_degree + 1) * (max_degree + 2) / 2`. -/
def p_size : ℕ := (max_degree + 1) * (max_degree + 2) / 2

/-- The integer bookkeeping of the synthesis loop of
`Igrf::calculateMagDensity` (Igrf.hpp lines 207-253): the loop counter
`p_idx`, the degree `n`, the order `m`, the coefficient cursor `c_idx`, and —
in place of the `double ratio` that the loop keeps multiplying by
`earth_radius / r` — the exponent `rexp` with `ratio = (earth_radius / r) ^ rexp`. -/
structure IdxState where
  p_idx : ℕ
  n : ℕ
  m : ℕ
  c_idx : ℕ
  rexp : ℕ
deriving DecidableEq

/-- Igrf.hpp lines 204-207: the state on entering the loop — `ratio`
initialised to `(earth_radius / r) * (earth_radius / r)` (so `rexp = 2`),
then `c_idx = 1, n = 0, m = 1`, and the loop counter starting at `p_idx = 2`. -/
def idxInit : IdxState := ⟨2, 0, 1, 1, 2⟩

/-- Igrf.hpp lines 209-213: the adjustment at the top of each iteration —
`if (n < m) { n++; m = 0; ratio *= earth_radius / r; }`. -/
def idxAdjust (s : IdxState) : IdxState :=
  if s.n < s.m then ⟨s.p_idx, s.n + 1, 0, s.c_idx, s.rexp + 1⟩ else s

/-- One visited position of the synthesis loop after the top-of-iteration
adjustment: the degree/order pair `(n, m)` handled in that iteration, the
coefficient cursor `c_idx` when the iteration reads the coefficient array,
and the `ratio` exponent `rexp`. -/
structure Entry where
  n : ℕ
  m : ℕ
  c_idx : ℕ
  rexp : ℕ
deriving DecidableEq

/-- Igrf.hpp lines 236, 250, 252 and the `p_idx++` of line 208: the cursor
advance at the bottom of an iteration — `c_idx` grows by 1 for `m = 0` and by
2 otherwise, then `m++` and the loop counter moves on. -/
def idxAdvance (s : IdxState) : IdxState :=
  ⟨s.p_idx + 1, s.n, s.m + 1, s.c_idx + (if s.m = 0 then 1 else 2), s.rexp⟩

/-- The sequence of positions the loop of Igrf.hpp lines 208-253 visits,
built by iterating `idxAdjust`/`idxAdvance`, together with the state left
after the last iteration. -/
def walkAux (s : IdxState) : ℕ → List Entry × IdxState
  | 0 => ([], s)
  | k + 1 =>
      let t := idxAdjust s
      let rest := walkAux (idxAdvance t) k
      (⟨t.n, t.m, t.c_idx, t.rexp⟩ :: rest.1, rest.2)

/-- The full walk of the synthesis loop: `p_idx` runs from 2 to `p_size`
inclusive (Igrf.hpp line 208), i.e. `p_size - 1 = 104` iterations. -/
def walk : List Entry := (walkAux idxInit (p_size - 1)).1

/-- The loop state after the last iteration of the synthesis loop. -/
def idxFinal : IdxState := (walkAux idxInit (p_size - 1)).2

/-- Igrf.hpp lines 230-236 / 237-244: the amount added to `b_r` in one
iteration.  For `m = 0` (lines 231-234) the coefficient is
`coeffs[c_idx - 1]` and the term is `(n + 1) * (ratio * gh) * p[...]`; for
`m ≥ 1` (lines 238-243) the pair `g = coeffs[c_idx - 1]`, `h = coeffs[c_idx]`
combines with `cos_phi[m - 1]`, `sin_phi[m - 1]`. -/
noncomputable def brTerm (coeffs : ℕ → ℝ) (st ct aor : ℝ) (cp sp : ℕ → ℝ) (e : Entry) : ℝ :=
  if e.m = 0 then
    (e.n + 1 : ℕ) * (aor ^ e.rexp * coeffs (e.c_idx - 1)) * legP st ct e.n e.m
  else
    (e.n + 1 : ℕ) *
      (aor ^ e.rexp * (coeffs (e.c_idx - 1) * cp (e.m - 1) + coeffs e.c_idx * sp (e.m - 1))) *
      legP st ct e.n e.m

/-- Igrf.hpp lines 235 and 244: the amount subtracted from `b_t` in one
iteration — the same `cof` as in `brTerm`, times `d_p[...]`. -/
noncomputable def btTerm (coeffs : ℕ → ℝ) (st ct aor : ℝ) (cp sp : ℕ → ℝ) (e : Entry) : ℝ :=
  if e.m = 0 then
    aor ^ e.rexp * coeffs (e.c_idx - 1) * legDP st ct e.n e.m
  else
    aor ^ e.rexp * (coeffs (e.c_idx - 1) * cp (e.m - 1) + coeffs e.c_idx * sp (e.m - 1)) *
      legDP st ct e.n e.m

/-- Igrf.hpp lines 245-249: the amount subtracted from `b_p` in one
iteration.  Nothing is subtracted for `m = 0`; for `m ≥ 1`, when
`sin_theta = 0` the pole branch of line 246 is used
(`cos_theta * ratio * (h * cos - g * sin) * p[...]`, no division), and
otherwise the general branch of line 248
(`1 / sin_theta * ratio * m * (h * cos - g * sin) * p[...]`). -/
noncomputable def bpTerm (coeffs : ℕ → ℝ) (st ct aor : ℝ) (cp sp : ℕ → ℝ) (e : Entry) : ℝ :=
  if e.m = 0 then 0
  else
    let g := coeffs (e.c_idx - 1)
    let h := coeffs e.c_idx
    if st = 0 then
      ct * (aor ^ e.rexp) * (h * cp (e.m - 1) - g * sp (e.m - 1)) * legP st ct e.n e.m
    else
      1 / st * (aor ^ e.rexp) * (e.m : ℕ) * (h * cp (e.m - 1) - g * sp (e.m - 1)) *
        legP st ct e.n e.m

/-- The three field accumulators of the synthesis loop (Igrf.hpp line 203):
`b_r`, `b_t`, `b_p`, all starting at 0. -/
structure MagAcc where
  b_r : ℝ
  b_t : ℝ
  b_p : ℝ

/-- Igrf.hpp lines 230-251: one iteration's effect on the three accumulators
(`b_r += …`, `b_t -= …`, `b_p -= …`), with the shared `cof` of the source
split into the three per-accumulator terms above. -/
noncomputable def accStep (coeffs : ℕ → ℝ) (st ct aor : ℝ) (cp sp : ℕ → ℝ)
    (acc : MagAcc) (e : Entry) : MagAcc :=
  ⟨acc.b_r + brTerm coeffs st ct aor cp sp e,
   acc.b_t - btTerm coeffs st ct aor cp sp e,
   acc.b_p - bpTerm coeffs st ct aor cp sp e⟩

/-- The output vector type: `Eigen::Vector3d` as a real triple
(north, east, down after the final rotation). -/
abbrev Vec3 := ℝ × ℝ × ℝ

/-- Scalar multiplication of an `Eigen::Vector3d` (`mag_density * s`). -/
noncomputable def scaleVec (s : ℝ) (v : Vec3) : Vec3 := (s * v.1, s * v.2.1, s * v.2.2)

/-- Igrf.hpp lines 152-255: `Igrf::calculateMagDensity` — normalise the
position, run the synthesis loop over `walk` starting from zero accumulators,
and rotate `(b_r, b_t, b_p)` into the local north/east/down triple with the
rotation angle from the normalisation (line 254:
`mag_density << -b_t * cos_delta - b_r * sin_delta, b_p,
b_t * sin_delta - b_r * cos_delta`).  The result is in nanotesla. -/
noncomputable def calculateMagDensity (model : Model) (pos : Position) :
    Except GeoMagError Vec3 :=
  match normalizePosition pos with
  | .error e => .error e
  | .ok np =>
      let aor := earth_radius / np.r
      let acc := walk.foldl
        (accStep model.coefficients np.sin_theta np.cos_theta aor
          (cosPhi pos.longitude) (sinPhi pos.longitude)) ⟨0, 0, 0⟩
      .ok (-acc.b_t * np.cos_delta - acc.b_r * np.sin_delta, acc.b_p,
           acc.b_t * np.sin_delta - acc.b_r * np.cos_delta)

/-- Igrf.hpp lines 263-277: `Igrf::updatePositionAndMag` — build the working
model for the epoch, then synthesise the nanotesla field vector at the
position. -/
noncomputable def updatePositionAndMag (ms : ModelSet) (dt : DateTime) (pos : Position) :
    Except GeoMagError Vec3 :=
  match initializeModel ms dt with
  | .error e => .error e
  | .ok model => calculateMagDensity model pos

/-- Igrf.hpp line 91: `static constexpr double nanotesla_to_tesla = 1.0e-9`. -/
noncomputable def nanotesla_to_tesla : ℝ := 1.0e-9

/-- Igrf.hpp lines 19-90: the engine's instance state — the mutable working
model `m_model` and the immutable coefficient table `m_model_set`. -/
structure Igrf where
  m_model : Model
  m_model_set : ModelSet

/-- Igrf.hpp lines 48-64 together with lines 127-143 and 263-277: one call of
`Igrf::operator()` on an engine instance, with the mutation of the member
`m_model` made explicit — `initializeModel` overwrites the whole working
model (coefficients, epoch and type), `calculateMagDensity` reads it, and the
returned vector is the nanotesla vector times `nanotesla_to_tesla`.  When
`select` throws, the exception propagates and `m_model` is left untouched. -/
noncomputable def Igrf.queryState (s : Igrf) (dt : DateTime) (pos : Position) :
    Igrf × Except GeoMagError Vec3 :=
  match initializeModel s.m_model_set dt with
  | .error e => (s, .error e)
  | .ok model =>
      ({ s with m_model := model },
       (calculateMagDensity model pos).map (scaleVec nanotesla_to_tesla))

/-- Igrf.hpp lines 26-33 and 48-64: constructing an engine from a model set
and querying it once — the public `Igrf::operator()`. -/
noncomputable def Igrf.call (ms : ModelSet) (dt : DateTime) (pos : Position) :
    Except GeoMagError Vec3 :=
  (Igrf.queryState ⟨Model.defaultValue, ms⟩ dt pos).2

/-- GeoMagFlux.hpp line 19: `enum class MagFluxUnit`. -/
inductive MagFluxUnit where
  | NanoTesla
  | MicroTesla
  | Tesla
  | Gauss
  | Si
  | Cgs
  | Mks
  | Mksa
deriving DecidableEq

/-- GeoMagFlux.hpp lines 97-134: the scale factor `m_unit_scale` that
`GeoMagFlux::setScaling` assigns for each unit (`nanotesla_to_tesla = 1.0e-9`,
`nanotesla_to_microtesla = 1.0e-3`, `nanotesla_to_gauss = 1.0e-5`). -/
noncomputable def unitScale : MagFluxUnit → ℝ
  | .NanoTesla => 1
  | .MicroTesla => 1.0e-3
  | .Tesla => 1.0e-9
  | .Gauss => 1.0e-5
  | .Si => 1.0e-9
  | .Cgs => 1.0e-5
  | .Mks => 1.0e-9
  | .Mksa => 1.0e-9

/-- GeoMagFlux.hpp lines 97-134: the unit symbol `m_unit_symbol` that
`GeoMagFlux::setScaling` assigns for each unit. -/
def unitSymbol : MagFluxUnit → String
  | .NanoTesla => "nT"
  | .MicroTesla => "uT"
  | .Tesla => "T"
  | .Gauss => "G"
  | .Si => "T"
  | .Cgs => "G"
  | .Mks => "T"
  | .Mksa => "T"

/-- GeoMagFlux.hpp lines 50-66: `GeoMagFlux::operator()` — the same
`updatePositionAndMag` as the underlying `Igrf` (protected inheritance),
scaled by `m_unit_scale` for the unit chosen at construction. -/
noncomputable def GeoMagFlux.call (unit : MagFluxUnit) (ms : ModelSet) (dt : DateTime)
    (pos : Position) : Except GeoMagError Vec3 :=
  (updatePositionAndMag ms dt pos).map (scaleVec (unitScale unit))

/-! ### The coefficient-stream parser (`ModelSet::read`, Model.hpp lines 170-245)

A line's tokens (the `std::istream_iterator<std::string>` of the source) are
modelled as lists of characters; `std::stod` / `std::stoi` are standard
library functions, so they enter as parameters of type `Token → Option ℝ` /
`Token → Option ℤ`, `none` standing for the `std::invalid_argument` /
`std::out_of_range` exceptions the `catch (...)` blocks swallow. -/

/-- A whitespace-separated token of a model-file line. -/
abbrev Token := List Char

/-- Model.hpp lines 158-168: `ModelSet::getModelType`. -/
def getModelType (elem : Token) : ModelType :=
  if elem = "DGRF".toList then ModelType.Dgrf
  else if elem = "IGRF".toList then ModelType.Igrf
  else if elem = "SV".toList then ModelType.Sv
  else ModelType.Unknown

/-- Write `v` into `models[m_i].coefficients[c_i]`
(Model.hpp line 229).  In C++ an `m_i` at or past `m_models.size()` is an
out-of-bounds write (undefined behaviour); `List.set` leaves the list
unchanged there. -/
noncomputable def setCoeff (models : List Model) (m_i c_i : ℕ) (v : ℝ) : List Model :=
  models.set m_i
    (let old := models.getD m_i Model.defaultValue
     { old with coefficients := Function.update old.coefficients c_i v })

/-- Model.hpp lines 225-236: one token of a coefficient row acting on the
state `(models, m_i, colum)`.  Tokens before column 3 are labels; from
column 3 on, a token that `std::stod` parses is stored at
`coefficients[c_i]` of model `m_i` and advances `m_i`; one that throws is
skipped by the `catch (...)` (only `colum` advances). -/
noncomputable def coeffRowStep (stod : Token → Option ℝ) (c_i : ℕ)
    (st : List Model × ℕ × ℕ) (tok : Token) : List Model × ℕ × ℕ :=
  let models := st.1
  let m_i := st.2.1
  let colum := st.2.2
  if 3 ≤ colum then
    match stod tok with
    | some v => (setCoeff models m_i c_i v, m_i + 1, colum + 1)
    | none => (models, m_i, colum + 1)
  else (models, m_i, colum + 1)

/-- Model.hpp lines 218-241: a whole `GCoeffecient`/`HCoeffecient` row —
fold the tokens from `(models, m_i = 0, colum = 0)`, then advance the
row-spanning coefficient index `c_i` exactly when every model received a
value (`m_i == m_models.size()`, line 238). -/
noncomputable def readCoeffRow (stod : Token → Option ℝ) (models : List Model) (c_i : ℕ)
    (tokens : List Token) : List Model × ℕ :=
  let fin := tokens.foldl (coeffRowStep stod c_i) (models, 0, 0)
  (fin.1, if fin.2.1 = fin.1.length then c_i + 1 else c_i)

/-- Model.hpp lines 199-208: the year a token of the epoch row yields.  A
token containing `-` is treated as a compressed range `yyyy-yy`:
`lower = substr(0, bound)`, `upper = substr(bound + 1, …)`, and the parsed
string is `lower.substr(0, lower.length() - upper.length()) + upper` — the
`size_t` subtraction wraps when `upper` is longer than `lower`, making that
`substr` return all of `lower`. -/
def epochYearOf (stoi : Token → Option ℤ) (tok : Token) : Option ℤ :=
  let range_bound := tok.indexOf '-'
  if range_bound ≠ tok.length then
    let lower := tok.take range_bound
    let upper := tok.drop (range_bound + 1)
    let head := if upper.length ≤ lower.length
      then lower.take (lower.length - upper.length) else lower
    stoi (head ++ upper)
  else stoi tok

/-- Model.hpp lines 197-215: one token of the epoch row acting on
`(models, i)`.  Only tokens of at least 6 characters (`sizeof("yyyy.y") - 1`)
are considered; a token whose year parses sets
`models[i].epoch = DateTime(year, 1)` (January 1) and advances `i`; one whose
parse throws is skipped by the `catch (...)`. -/
noncomputable def epochRowStep (stoi : Token → Option ℤ)
    (st : List Model × ℕ) (tok : Token) : List Model × ℕ :=
  let models := st.1
  let i := st.2
  if 6 ≤ tok.length then
    match epochYearOf stoi tok with
    | some y =>
        (models.set i
          (let old := models.getD i Model.defaultValue
           { old with epoch := ⟨y, 0⟩ }), i + 1)
    | none => (models, i)
  else (models, i)

/-- Model.hpp lines 192-216: a whole epoch row — fold the tokens from
`(models, i = 0)`. -/
noncomputable def readEpochRow (stoi : Token → Option ℤ) (models : List Model)
    (tokens : List Token) : List Model × ℕ :=
  tokens.foldl (epochRowStep stoi) (models, 0)

/-- Model.hpp lines 177-189: a model-type row — every token naming a known
model kind appends a fresh model of that kind. -/
noncomputable def readModelTypeRow (models : List Model) (tokens : List Token) : List Model :=
  tokens.foldl
    (fun ms tok =>
      let t := getModelType tok
      if t ≠ ModelType.Unknown then ms ++ [{ Model.defaultValue with type := t }] else ms)
    models

/-! ### Concrete instances used by counterexamples and witnesses -/

/-- A snapshot at epoch 1900.0 with all coefficients zero. -/
noncomputable def snapA : Model := ⟨⟨1900, 0⟩, ModelType.Igrf, fun _ => 0⟩

/-- A snapshot at epoch 1905.0 with all coefficients one. -/
noncomputable def snapB : Model := ⟨⟨1905, 0⟩, ModelType.Igrf, fun _ => 1⟩

/-- A two-snapshot table: epochs 1900.0 and 1905.0. -/
noncomputable def tableA : ModelSet := ⟨[snapA, snapB]⟩

/-- A snapshot whose epoch falls in the middle of calendar year 1900
(fractional year 1900.5), with all coefficients zero. -/
noncomputable def snapHalf : Model := ⟨⟨1900, 1/2⟩, ModelType.Igrf, fun _ => 0⟩

/-- A snapshot at epoch 1901.0 with all coefficients one. -/
noncomputable def snapNext : Model := ⟨⟨1901, 0⟩, ModelType.Igrf, fun _ => 1⟩

/-- A snapshot at epoch 1902.0 with all coefficients one. -/
noncomputable def snapNext2 : Model := ⟨⟨1902, 0⟩, ModelType.Igrf, fun _ => 1⟩

/-- A coefficient array with `g(1,0) = 1` (packed index 0) and every other
Gauss coefficient zero. -/
noncomputable def g10Coefficients : ℕ → ℝ := fun i => if i = 0 then 1 else 0

/-- A snapshot at epoch 2000.0 carrying only `g(1,0) = 1`. -/
noncomputable def snapC : Model := ⟨⟨2000, 0⟩, ModelType.Igrf, g10Coefficients⟩

/-- A snapshot at epoch 2010.0 carrying only `g(1,0) = 1`. -/
noncomputable def snapD : Model := ⟨⟨2010, 0⟩, ModelType.Igrf, g10Coefficients⟩

/-- A two-snapshot table carrying only the dipole coefficient `g(1,0) = 1`,
at epochs 2000.0 and 2010.0. -/
noncomputable def tableB : ModelSet := ⟨[snapC, snapD]⟩

/-- The query epoch 2005.0, inside the bracket of `tableB`. -/
def poleEpoch : DateTime := ⟨2005, 0⟩

/-- A geocentric-spherical position at the geographic north pole (latitude
π/2, longitude 0) at radius `earth_radius`, so that `sin θ = 0` at the pole
and `earth_radius / r = 1`. -/
noncomputable def polePosition : Position :=
  ⟨CoordinateType.GeocentricSpherical, earth_radius, 0, Real.pi / 2⟩

/-! ### Theorems -/

/-- Helper: the `ratio` exponent carried by the walk is `n + 2` at every
iteration — the loop's multiplicatively maintained `ratio` is
`(earth_radius / r) ^ (n + 2)`, as the spec's §4.4 step 3 describes. -/
theorem walk_rexp_eq : ∀ e ∈ walk, e.rexp = e.n + 2 := by decide

/-- C3 (counterexample): the stored coefficient sequence is not 195 doubles
long — `max_coefficient_size` is `max_degree * (max_degree + 2) + 1 = 196`,
not `n_max * (n_max + 2) = 195` as the claim states. -/
theorem coefficient_array_size_ne_195 : ¬ max_coefficient_size = 195 := by decide

/-- C3 (amended): every snapshot stores its coefficients in a fixed-length
array of `max_coefficient_size = max_degree * (max_degree + 2) + 1 = 196`
doubles; the canonical IGRF column order occupies exactly the first 195
entries — the synthesis walk reads, for each degree `n = 1..13`, one slot at
index `n² - 1` for `m = 0` and the pair at `n² + 2m - 2`, `n² + 2m - 1` for
`m ≥ 1`, consuming `n_max * (n_max + 2) = 195` slots in total and leaving the
final cursor at 196. -/
theorem coefficient_packing_size :
    max_coefficient_size = max_degree * (max_degree + 2) + 1 ∧
    (∀ e ∈ walk, e.c_idx = if e.m = 0 then e.n * e.n else e.n * e.n + 2 * e.m - 1) ∧
    (walk.map fun e => if e.m = 0 then 1 else 2).sum = max_degree * (max_degree + 2) ∧
    idxFinal.c_idx = max_coefficient_size := by
  exact ⟨rfl, by decide, by decide, by decide⟩

/-- C1 (code evaluated at the failing input): for an epoch before the first
snapshot's epoch, `ModelSet::select` does not throw `NoBracketFound` — the
lower bound is `begin()` and the C++ executes the out-of-bounds read
`last = *(it - 1)` (undefined behaviour), surfaced in this embedding as
`.error .ubRead`. -/
theorem select_before_first_epoch_reads_out_of_bounds :
    tableA.select ⟨1899, 0⟩ = .error .ubRead := by
  unfold ModelSet.select lowerBoundIdx tableA snapA snapB
  simp [List.findIdx_cons, DateTime.fractionalYears]
  norm_num

/-- Helper: one query followed through `Igrf.queryState` equals the bare
`updatePositionAndMag` result scaled by `nanotesla_to_tesla`. -/
theorem queryState_snd_eq_map (s : Igrf) (dt : DateTime) (pos : Position) :
    (Igrf.queryState s dt pos).2 =
      (updatePositionAndMag s.m_model_set dt pos).map (scaleVec nanotesla_to_tesla) := by
  unfold Igrf.queryState updatePositionAndMag
  cases h : initializeModel s.m_model_set dt <;> simp only [h] <;> rfl

/-- Helper: the public `Igrf::operator()` as the raw nanotesla vector scaled
by `nanotesla_to_tesla`. -/
theorem igrfCall_eq_map (ms : ModelSet) (dt : DateTime) (pos : Position) :
    Igrf.call ms dt pos =
      (updatePositionAndMag ms dt pos).map (scaleVec nanotesla_to_tesla) := by
  unfold Igrf.call
  exact queryState_snd_eq_map _ _ _

/-- C10: queried in unit mode `Si` (likewise `Tesla`, `Mks`, `Mksa`), the
`GeoMagFlux` wrapper returns exactly the vector of the underlying `Igrf`
engine built from the same model set — both scale the synthesized nanotesla
vector by the identical factor `1.0e-9`. -/
theorem geomagflux_si_equals_igrf :
    ∀ (ms : ModelSet) (dt : DateTime) (pos : Position),
      GeoMagFlux.call MagFluxUnit.Si ms dt pos = Igrf.call ms dt pos ∧
      GeoMagFlux.call MagFluxUnit.Tesla ms dt pos = Igrf.call ms dt pos ∧
      GeoMagFlux.call MagFluxUnit.Mks ms dt pos = Igrf.call ms dt pos ∧
      GeoMagFlux.call MagFluxUnit.Mksa ms dt pos = Igrf.call ms dt pos ∧
      unitScale MagFluxUnit.Si = nanotesla_to_tesla := by
  intro ms dt pos
  rw [igrfCall_eq_map]
  refine ⟨rfl, rfl, rfl, rfl, rfl⟩

/-- Helper: the returned vector of `Igrf.queryState` depends only on the
coefficient table of the engine state, never on its mutable working model. -/
theorem queryState_snd_congr (s t : Igrf) (dt : DateTime) (pos : Position)
    (h : s.m_model_set = t.m_model_set) :
    (Igrf.queryState s dt pos).2 = (Igrf.queryState t dt pos).2 := by
  rw [queryState_snd_eq_map, queryState_snd_eq_map, h]

/-- C7: the result of a field query depends only on its own (epoch, position)
arguments — evaluating a query after any earlier query on the same engine
instance yields the same answer as evaluating it on a freshly constructed
engine holding the same coefficient table. -/
theorem query_result_independent_of_history :
    ∀ (s : Igrf) (e1 : DateTime) (p1 : Position) (e2 : DateTime) (p2 : Position),
      (Igrf.queryState (Igrf.queryState s e1 p1).1 e2 p2).2 =
        (Igrf.queryState ⟨Model.defaultValue, s.m_model_set⟩ e2 p2).2 := by
  intro s e1 p1 e2 p2
  refine queryState_snd_congr _ _ _ _ ?_
  unfold Igrf.queryState
  cases h : initializeModel s.m_model_set e1 <;> rfl

/-- C5 (counterexample): blending at a snapshot's own epoch with that
snapshot as lower bound does not reproduce its coefficients when the epoch
falls inside a calendar year — for `snapHalf` (fractional year 1900.5) the
interpolation factor is `(1900.5 - year(1900.5)) / (1901 - 1900) = 1/2`, so
coefficient 0 comes out `1/2`, not `snapHalf`'s stored `0`. -/
theorem blend_at_own_epoch_cex :
    interpolateModel snapHalf.epoch snapHalf snapNext 0 ≠ snapHalf.coefficients 0 := by
  unfold interpolateModel snapHalf snapNext DateTime.fractionalYears
  norm_num

/-- C5 (amended): for every snapshot `S` whose epoch lies exactly on a
calendar-year boundary (zero fractional part — as every snapshot built by
this repository does, both the compiled-in table and the parser producing
January-1 epochs), blending at `S`'s own epoch with `S` as the lower bound
reproduces `S`'s coefficient sequence exactly, under both the interpolation
(`f = 0`) and the extrapolation (`Δt = 0`) formula, for every upper
bracket. -/
theorem blend_at_year_boundary_epoch_identity (last next : Model)
    (h : last.epoch.frac = 0) :
    (∀ i, interpolateModel last.epoch last next i = last.coefficients i) ∧
    (∀ i, extrapolateModel last.epoch last next i = last.coefficients i) := by
  have hy : (last.epoch.fractionalYears : ℝ) - (last.epoch.year : ℝ) = 0 := by
    unfold DateTime.fractionalYears
    push_cast [h]
    ring
  constructor <;> intro i
  · unfold interpolateModel
    rw [hy]
    simp
  · unfold extrapolateModel
    rw [hy]
    simp

/-- C5 (witness): the amended identity at the concrete snapshot `snapA`
(epoch 1900.0, a year boundary) with upper bracket `snapB`. -/
theorem blend_at_year_boundary_epoch_identity_witness :
    (∀ i, interpolateModel snapA.epoch snapA snapB i = snapA.coefficients i) ∧
    (∀ i, extrapolateModel snapA.epoch snapA snapB i = snapA.coefficients i) :=
  blend_at_year_boundary_epoch_identity snapA snapB rfl

/-- C4 (counterexample): the blend factor of the claim,
`f = (epoch - lower.epoch) / (upper.epoch - lower.epoch)` over fractional
years, does not describe the code: with `lower.epoch = 1900.5`,
`upper.epoch = 1902.0` and query epoch 1901.0 the code computes
`(1901 - year(1900.5)) / (year(1902) - year(1900.5)) = 1/2`, while the
claimed factor is `(1901 - 1900.5) / (1902 - 1900.5) = 1/3`. -/
theorem blend_formula_uses_calendar_year_cex :
    interpolateModel ⟨1901, 0⟩ snapHalf snapNext2 0 ≠
      snapHalf.coefficients 0 +
        (((⟨1901, 0⟩ : DateTime).fractionalYears : ℝ) -
            (snapHalf.epoch.fractionalYears : ℝ)) /
          ((snapNext2.epoch.fractionalYears : ℝ) - (snapHalf.epoch.fractionalYears : ℝ)) *
          (snapNext2.coefficients 0 - snapHalf.coefficients 0) := by
  unfold interpolateModel snapHalf snapNext2 DateTime.fractionalYears
  norm_num

/-- C4 (amended): for every epoch and bracketing pair delivered by
`ModelSet::select`, the working model is tagged `Interpolated` with
coefficients `c = c_lower + f * (c_upper - c_lower)`,
`f = (epoch - year(lower.epoch)) / (year(upper.epoch) - year(lower.epoch))`
when the upper bracket is not a secular-variation model, and tagged
`Extrapolated` with `c = c_lower + Δt * c_upper`,
`Δt = epoch - year(lower.epoch)`, when it is — the snapshot epochs entering
through their calendar years (which coincide with their fractional years for
every snapshot this repository builds). -/
theorem initializeModel_blend_formulas (ms : ModelSet) (dt : DateTime) (last next : Model)
    (hsel : ms.select dt = .ok (last, next)) :
    (next.type ≠ ModelType.Sv →
      initializeModel ms dt =
        .ok ⟨dt, ModelType.Interpolated, fun i =>
          last.coefficients i +
            ((dt.fractionalYears : ℝ) - (last.epoch.year : ℝ)) /
                ((next.epoch.year : ℝ) - (last.epoch.year : ℝ)) *
              (next.coefficients i - last.coefficients i)⟩) ∧
    (next.type = ModelType.Sv →
      initializeModel ms dt =
        .ok ⟨dt, ModelType.Extrapolated, fun i =>
          last.coefficients i +
            ((dt.fractionalYears : ℝ) - (last.epoch.year : ℝ)) * next.coefficients i⟩) := by
  have hred : initializeModel ms dt =
      if next.type ≠ ModelType.Sv then
        .ok ⟨dt, ModelType.Interpolated, interpolateModel dt last next⟩
      else
        .ok ⟨dt, ModelType.Extrapolated, extrapolateModel dt last next⟩ := by
    unfold initializeModel
    rw [hsel]
  constructor <;> intro h
  · rw [hred, if_pos h]
    rfl
  · rw [hred, if_neg (by simp [h])]
    rfl

/-- C4 (witness): the amended blend description at the concrete table
`tableA` and epoch 1903.0, whose bracket is `(snapA, snapB)`. -/
theorem initializeModel_blend_formulas_witness :
    tableA.select ⟨1903, 0⟩ = .ok (snapA, snapB) ∧
    ((snapB.type ≠ ModelType.Sv →
      initializeModel tableA ⟨1903, 0⟩ =
        .ok ⟨⟨1903, 0⟩, ModelType.Interpolated, fun i =>
          snapA.coefficients i +
            (((⟨1903, 0⟩ : DateTime).fractionalYears : ℝ) - (snapA.epoch.year : ℝ)) /
                ((snapB.epoch.year : ℝ) - (snapA.epoch.year : ℝ)) *
              (snapB.coefficients i - snapA.coefficients i)⟩) ∧
     (snapB.type = ModelType.Sv →
      initializeModel tableA ⟨1903, 0⟩ =
        .ok ⟨⟨1903, 0⟩, ModelType.Extrapolated, fun i =>
          snapA.coefficients i +
            (((⟨1903, 0⟩ : DateTime).fractionalYears : ℝ) - (snapA.epoch.year : ℝ)) *
              snapB.coefficients i⟩)) := by
  have hsel : tableA.select ⟨1903, 0⟩ = .ok (snapA, snapB) := by
    unfold ModelSet.select lowerBoundIdx tableA snapA snapB
    simp [List.findIdx_cons, DateTime.fractionalYears]
    norm_num
  exact ⟨hsel, initializeModel_blend_formulas tableA ⟨1903, 0⟩ snapA snapB hsel⟩

/-- C8: for a geodetic (WGS84) position with geodetic latitude 0 and height
0, the geodetic-to-geocentric normalisation yields rotation angle δ = 0
(`cos_delta = 1`, `sin_delta = 0`) and geocentric radius equal to the
ellipsoid's equatorial semi-axis `wgs84_a` (and the geocentric colatitude
stays the equator: `cos θ = 0`, `sin θ = 1`). -/
theorem geodetic_equator_delta_zero_radius_a :
    ∀ phi : ℝ, normalizePosition ⟨CoordinateType.Wgs84, 0, phi, 0⟩ =
      .ok ⟨wgs84_a, 0, 1, 1, 0⟩ := by
  intro phi
  have ha : (0 : ℝ) < wgs84_a := by unfold wgs84_a; norm_num
  have haa : wgs84_a * wgs84_a ≠ 0 := by positivity
  have hrho : Real.sqrt (wgs84_a * wgs84_a * 1 * 1 + wgs84_b * wgs84_b * 0 * 0) = wgs84_a := by
    rw [show wgs84_a * wgs84_a * 1 * 1 + wgs84_b * wgs84_b * 0 * 0 = wgs84_a * wgs84_a by ring]
    exact Real.sqrt_mul_self ha.le
  unfold normalizePosition
  simp only [Real.sin_zero, Real.cos_zero, hrho]
  have hr : Real.sqrt
      ((wgs84_a * wgs84_a * (wgs84_a * wgs84_a * 1 * 1) +
          wgs84_b * wgs84_b * (wgs84_b * wgs84_b * 0 * 0)) /
          (wgs84_a * wgs84_a * 1 * 1 + wgs84_b * wgs84_b * 0 * 0) +
        0 * 0 + 2 * 0 * wgs84_a) = wgs84_a := by
    rw [show (wgs84_a * wgs84_a * (wgs84_a * wgs84_a * 1 * 1) +
          wgs84_b * wgs84_b * (wgs84_b * wgs84_b * 0 * 0)) /
          (wgs84_a * wgs84_a * 1 * 1 + wgs84_b * wgs84_b * 0 * 0) +
        0 * 0 + 2 * 0 * wgs84_a =
        wgs84_a * wgs84_a * (wgs84_a * wgs84_a) / (wgs84_a * wgs84_a) by ring_nf]
    rw [mul_div_assoc, div_self haa, mul_one]
    exact Real.sqrt_mul_self ha.le
  simp only [hr]
  have h1 : (0 + wgs84_a) / wgs84_a = 1 := by
    rw [zero_add, div_self ha.ne.symm]
  simp only [Except.ok.injEq, NormalizedPosition.mk.injEq]
  refine ⟨trivial, by rw [h1]; ring, by rw [h1]; ring, h1, by ring⟩

/-- Helper: the synthesis loop decomposes into the three per-iteration term
sums — `b_r` accumulates `brTerm`, `b_t` subtracts `btTerm`, `b_p` subtracts
`bpTerm`. -/
theorem foldl_accStep_eq (coeffs : ℕ → ℝ) (st ct aor : ℝ) (cp sp : ℕ → ℝ)
    (l : List Entry) (acc : MagAcc) :
    l.foldl (accStep coeffs st ct aor cp sp) acc =
      ⟨acc.b_r + (l.map (brTerm coeffs st ct aor cp sp)).sum,
       acc.b_t - (l.map (btTerm coeffs st ct aor cp sp)).sum,
       acc.b_p - (l.map (bpTerm coeffs st ct aor cp sp)).sum⟩ := by
  induction l generalizing acc with
  | nil => simp
  | cons e t ih =>
      simp only [List.foldl_cons, List.map_cons, List.sum_cons, ih]
      unfold accStep
      refine congrArg₂ (fun a b => MagAcc.mk a b.1 b.2) ?_ (congrArg₂ Prod.mk ?_ ?_) <;> ring

/-- C6: at the poles (`sin θ = 0`) the azimuthal accumulation of the
synthesis loop goes through the closed-form pole branch: each `m ≥ 1`
iteration subtracts `cos θ · ratio · (h·cos(mφ) − g·sin(mφ)) · P[n,m]` from
`Bφ` — the branch contains no `1 / sin θ` factor, so no division by zero
occurs — and over the whole loop `Bφ` is exactly the starting value minus the
sum of these closed-form terms (a well-defined real number). -/
theorem bp_pole_branch_closed_form :
    ∀ (coeffs : ℕ → ℝ) (ct aor : ℝ) (cp sp : ℕ → ℝ),
      (∀ e : Entry, e.m ≠ 0 →
        bpTerm coeffs 0 ct aor cp sp e =
          ct * aor ^ e.rexp *
            (coeffs e.c_idx * cp (e.m - 1) - coeffs (e.c_idx - 1) * sp (e.m - 1)) *
            legP 0 ct e.n e.m) ∧
      (∀ (l : List Entry) (acc : MagAcc),
        (l.foldl (accStep coeffs 0 ct aor cp sp) acc).b_p =
          acc.b_p - (l.map (bpTerm coeffs 0 ct aor cp sp)).sum) := by
  intro coeffs ct aor cp sp
  constructor
  · intro e hm
    unfold bpTerm
    rw [if_neg hm, if_pos rfl]
  · intro l acc
    rw [foldl_accStep_eq]

/-- Helper: every token of a coefficient row advances the column counter by
exactly one, whatever else happens. -/
theorem coeffRow_colum_eq (stod : Token → Option ℝ) (c_i : ℕ) (toks : List Token)
    (st : List Model × ℕ × ℕ) :
    (toks.foldl (coeffRowStep stod c_i) st).2.2 = st.2.2 + toks.length := by
  induction toks generalizing st with
  | nil => simp
  | cons tok t ih =>
      obtain ⟨mods, mi, c⟩ := st
      rw [List.foldl_cons, ih]
      have hstep : (coeffRowStep stod c_i (mods, mi, c) tok).2.2 = c + 1 := by
        unfold coeffRowStep
        by_cases h : 3 ≤ c
        · rw [if_pos h]
          cases stod tok <;> rfl
        · rw [if_neg h]
      rw [hstep, List.length_cons]
      ring

/-- Helper: once the column counter has passed the three label columns, its
exact value no longer influences the models or the model cursor a
coefficient row produces. -/
theorem coeffRow_fold_colum_irrelevant (stod : Token → Option ℝ) (c_i : ℕ)
    (toks : List Token) (mods : List Model) (m c1 c2 : ℕ)
    (hc1 : 3 ≤ c1) (hc2 : 3 ≤ c2) :
    (toks.foldl (coeffRowStep stod c_i) (mods, m, c1)).1 =
        (toks.foldl (coeffRowStep stod c_i) (mods, m, c2)).1 ∧
      (toks.foldl (coeffRowStep stod c_i) (mods, m, c1)).2.1 =
        (toks.foldl (coeffRowStep stod c_i) (mods, m, c2)).2.1 := by
  induction toks generalizing mods m c1 c2 with
  | nil => exact ⟨rfl, rfl⟩
  | cons tok t ih =>
      rw [List.foldl_cons, List.foldl_cons]
      have e1 : coeffRowStep stod c_i (mods, m, c1) tok =
          match stod tok with
          | some v => (setCoeff mods m c_i v, m + 1, c1 + 1)
          | none => (mods, m, c1 + 1) := by
        unfold coeffRowStep
        rw [if_pos hc1]
      have e2 : coeffRowStep stod c_i (mods, m, c2) tok =
          match stod tok with
          | some v => (setCoeff mods m c_i v, m + 1, c2 + 1)
          | none => (mods, m, c2 + 1) := by
        unfold coeffRowStep
        rw [if_pos hc2]
      rw [e1, e2]
      cases stod tok with
      | some v => exact ih _ _ _ _ (by omega) (by omega)
      | none => exact ih _ _ _ _ (by omega) (by omega)

/-- C9: a non-numeric token never terminates parsing with an error — in a
coefficient row (any token at column ≥ 3 on which `std::stod` throws) and in
the epoch row (any token whose year parse throws), the `catch (...)` skips
the token and reading continues, producing exactly the state the row would
produce without that token; row processing is total, so stream construction
succeeds on such input. -/
theorem parser_skips_nonnumeric_tokens
    (stod : Token → Option ℝ) (stoi : Token → Option ℤ) (models : List Model) (c_i : ℕ)
    (pre suf : List Token) (bad : Token)
    (h1 : stod bad = none) (h2 : epochYearOf stoi bad = none) (h3 : 3 ≤ pre.length) :
    readCoeffRow stod models c_i (pre ++ bad :: suf) =
        readCoeffRow stod models c_i (pre ++ suf) ∧
      readEpochRow stoi models (pre ++ bad :: suf) =
        readEpochRow stoi models (pre ++ suf) := by
  constructor
  · unfold readCoeffRow
    rw [List.foldl_append, List.foldl_append, List.foldl_cons]
    have hfold : ∃ r, pre.foldl (coeffRowStep stod c_i) (models, 0, 0) = r := ⟨_, rfl⟩
    obtain ⟨⟨mods1, mi1, c1⟩, hfold⟩ := hfold
    have hcol : c1 = pre.length := by
      have hc := coeffRow_colum_eq stod c_i pre (models, 0, 0)
      rw [hfold] at hc
      simpa using hc
    have hstep : coeffRowStep stod c_i (mods1, mi1, c1) bad = (mods1, mi1, c1 + 1) := by
      unfold coeffRowStep
      rw [if_pos (show 3 ≤ c1 by omega), h1]
    rw [hfold, hstep]
    have hx := coeffRow_fold_colum_irrelevant stod c_i suf mods1 mi1 (c1 + 1) c1
      (by omega) (by omega)
    simp only [hx.1, hx.2]
  · unfold readEpochRow
    rw [List.foldl_append, List.foldl_append, List.foldl_cons]
    have hstep : ∀ st, epochRowStep stoi st bad = st := by
      intro st
      unfold epochRowStep
      rw [h2]
      split <;> rfl
    rw [hstep]

/-- C9 (witness): the skip property at a concrete malformed stream — a
three-label coefficient row whose fourth token `xxxxxx` fails to parse, with
a parse oracle failing exactly on that token. -/
theorem parser_skips_nonnumeric_tokens_witness :
    (fun t : Token => if t = ['x', 'x', 'x', 'x', 'x', 'x'] then none else some (1 : ℝ))
        ['x', 'x', 'x', 'x', 'x', 'x'] = none ∧
      epochYearOf (fun _ => none) ['x', 'x', 'x', 'x', 'x', 'x'] = none ∧
      3 ≤ (['g'] :: ['1'] :: ['0'] :: []).length ∧
      (readCoeffRow
          (fun t : Token => if t = ['x', 'x', 'x', 'x', 'x', 'x'] then none else some (1 : ℝ))
          [] 0 ((['g'] :: ['1'] :: ['0'] :: []) ++ ['x', 'x', 'x', 'x', 'x', 'x'] :: [['2']]) =
        readCoeffRow
          (fun t : Token => if t = ['x', 'x', 'x', 'x', 'x', 'x'] then none else some (1 : ℝ))
          [] 0 ((['g'] :: ['1'] :: ['0'] :: []) ++ [['2']]) ∧
       readEpochRow (fun _ => none) []
          ((['g'] :: ['1'] :: ['0'] :: []) ++ ['x', 'x', 'x', 'x', 'x', 'x'] :: [['2']]) =
        readEpochRow (fun _ => none) [] ((['g'] :: ['1'] :: ['0'] :: []) ++ [['2']])) := by
  refine ⟨by simp, by unfold epochYearOf; simp, by simp, ?_⟩
  exact parser_skips_nonnumeric_tokens _ _ [] 0 _ _ _ (by simp)
    (by unfold epochYearOf; simp) (by simp)

/-! ### Evaluation of a full query on `tableB` at the pole (used by C2) -/

/-- Helper: `tableB` brackets epoch 2005.0 between its two snapshots. -/
theorem tableB_select_eval : tableB.select poleEpoch = .ok (snapC, snapD) := by
  unfold ModelSet.select lowerBoundIdx tableB snapC snapD poleEpoch
  simp [List.findIdx_cons, DateTime.fractionalYears]
  norm_num

/-- Helper: with equal coefficient arrays on both brackets, the interpolated
working model carries exactly that array. -/
theorem tableB_blend_eval :
    interpolateModel poleEpoch snapC snapD = g10Coefficients := by
  funext i
  unfold interpolateModel snapC snapD
  ring

/-- Helper: the working model `tableB` produces for epoch 2005.0. -/
theorem tableB_init_eval :
    initializeModel tableB poleEpoch =
      .ok ⟨poleEpoch, ModelType.Interpolated, g10Coefficients⟩ := by
  have hred : initializeModel tableB poleEpoch =
      if snapD.type ≠ ModelType.Sv then
        .ok ⟨poleEpoch, ModelType.Interpolated, interpolateModel poleEpoch snapC snapD⟩
      else
        .ok ⟨poleEpoch, ModelType.Extrapolated, extrapolateModel poleEpoch snapC snapD⟩ := by
    unfold initializeModel
    rw [tableB_select_eval]
  rw [hred, if_pos (by unfold snapD; simp), tableB_blend_eval]

/-- Helper: normalising the geocentric pole position — `sin θ = 0` at the
pole, no frame rotation. -/
theorem polePosition_normalize_eval :
    normalizePosition polePosition = .ok ⟨earth_radius, 1, 0, 1, 0⟩ := by
  unfold normalizePosition polePosition
  simp

/-- Helper: `P(1,0) = cos θ`, evaluated at the pole (`sin θ = 0`,
`cos θ = 1`). -/
theorem legP_one_zero_pole : legP 0 1 1 0 = 1 := by
  rw [legP, legP]
  norm_num [cofLeft, cofRight, Real.sqrt_one]

/-- Helper: `dP(1,0)`, evaluated at the pole, is 0. -/
theorem legDP_one_zero_pole : legDP 0 1 1 0 = 0 := by
  rw [legDP, legDP, legP]
  norm_num [cofLeft, cofRight, Real.sqrt_one]

/-- Helper: on `g10Coefficients`, every iteration whose coefficient cursor
has passed index 0 contributes nothing to any accumulator. -/
theorem g10_terms_zero (st ct aor : ℝ) (cp sp : ℕ → ℝ) (e : Entry) (h2 : 2 ≤ e.c_idx) :
    brTerm g10Coefficients st ct aor cp sp e = 0 ∧
      btTerm g10Coefficients st ct aor cp sp e = 0 ∧
      bpTerm g10Coefficients st ct aor cp sp e = 0 := by
  have hg1 : g10Coefficients (e.c_idx - 1) = 0 := by
    unfold g10Coefficients
    rw [if_neg (by omega)]
  have hg2 : g10Coefficients e.c_idx = 0 := by
    unfold g10Coefficients
    rw [if_neg (by omega)]
  unfold brTerm btTerm bpTerm
  by_cases hm : e.m = 0 <;> simp [hm, hg1, hg2]

/-- Helper: the first iteration of the walk handles `(n, m) = (1, 0)` with
coefficient cursor 1 and `ratio` exponent 3. -/
theorem walk_head_eval : walk = ⟨1, 0, 1, 3⟩ :: walk.tail := rfl

/-- Helper: every later iteration's coefficient cursor has passed index 0. -/
theorem walk_tail_cidx : ∀ e ∈ walk.tail, 2 ≤ e.c_idx := by decide

/-- Helper: the full synthesis sums on `g10Coefficients` at the pole with
`ratio` base 1 — only the `(1, 0)` head iteration contributes. -/
theorem tableB_sums_eval (cp sp : ℕ → ℝ) :
    (walk.map (brTerm g10Coefficients 0 1 1 cp sp)).sum = 2 ∧
      (walk.map (btTerm g10Coefficients 0 1 1 cp sp)).sum = 0 ∧
      (walk.map (bpTerm g10Coefficients 0 1 1 cp sp)).sum = 0 := by
  have htail : ∀ f : Entry → ℝ,
      (∀ e ∈ walk.tail, f e = 0) → ((walk.tail.map f).sum = 0) := by
    intro f hf
    apply List.sum_eq_zero
    intro x hx
    obtain ⟨e, he, rfl⟩ := List.mem_map.mp hx
    exact hf e he
  have hg0 : g10Coefficients 0 = 1 := rfl
  refine ⟨?_, ?_, ?_⟩
  · rw [walk_head_eval, List.map_cons, List.sum_cons,
      htail _ (fun e he => (g10_terms_zero 0 1 1 cp sp e (walk_tail_cidx e he)).1)]
    unfold brTerm
    norm_num [hg0, legP_one_zero_pole]
  · rw [walk_head_eval, List.map_cons, List.sum_cons,
      htail _ (fun e he => (g10_terms_zero 0 1 1 cp sp e (walk_tail_cidx e he)).2.1)]
    unfold btTerm
    norm_num [hg0, legDP_one_zero_pole]
  · rw [walk_head_eval, List.map_cons, List.sum_cons,
      htail _ (fun e he => (g10_terms_zero 0 1 1 cp sp e (walk_tail_cidx e he)).2.2)]
    unfold bpTerm
    norm_num

/-- Helper: the raw (nanotesla) field vector of a `tableB` query at the
pole — a pure downward dipole field of 2 nT. -/
theorem updatePositionAndMag_tableB :
    updatePositionAndMag tableB poleEpoch polePosition = .ok (0, 0, -2) := by
  unfold updatePositionAndMag
  rw [tableB_init_eval]
  show calculateMagDensity ⟨poleEpoch, ModelType.Interpolated, g10Coefficients⟩ polePosition =
    .ok (0, 0, -2)
  unfold calculateMagDensity
  rw [polePosition_normalize_eval]
  have haor : earth_radius / earth_radius = (1 : ℝ) := by
    unfold earth_radius
    norm_num
  show Except.ok (α := Vec3) (ε := GeoMagError) _ = _
  rw [Except.ok.injEq]
  have hlong : polePosition.longitude = 0 := rfl
  simp only [haor, foldl_accStep_eq]
  rw [(tableB_sums_eval (cosPhi polePosition.longitude) (sinPhi polePosition.longitude)).1,
    (tableB_sums_eval (cosPhi polePosition.longitude) (sinPhi polePosition.longitude)).2.1,
    (tableB_sums_eval (cosPhi polePosition.longitude) (sinPhi polePosition.longitude)).2.2]
  norm_num

/-- C2 (counterexample): the public query `Igrf::operator()` does not return
the field vector in nanotesla — at the pole query on `tableB` the synthesized
nanotesla NED vector is `(0, 0, -2)`, but the operator returns it multiplied
by `nanotesla_to_tesla = 1.0e-9`, i.e. `(0, 0, -2e-9)` (tesla). -/
theorem igrf_query_not_in_nanotesla :
    Igrf.call tableB poleEpoch polePosition ≠
      updatePositionAndMag tableB poleEpoch polePosition := by
  rw [igrfCall_eq_map, updatePositionAndMag_tableB]
  show Except.ok (scaleVec nanotesla_to_tesla (0, 0, -2)) ≠ _
  unfold scaleVec nanotesla_to_tesla
  simp only [ne_eq, Except.ok.injEq, Prod.mk.injEq]
  norm_num

/-- C2 (amended): for every valid epoch and position the public query
`Igrf::operator()` returns the synthesized north/east/down field vector in
tesla: the nanotesla NED vector of `updatePositionAndMag`, each component
scaled by the identical factor `nanotesla_to_tesla = 1.0e-9`. -/
theorem igrf_query_tesla_scaling :
    ∀ (ms : ModelSet) (dt : DateTime) (pos : Position) (v : Vec3),
      updatePositionAndMag ms dt pos = .ok v →
      Igrf.call ms dt pos = .ok (scaleVec nanotesla_to_tesla v) := by
  intro ms dt pos v h
  rw [igrfCall_eq_map, h]
  rfl

/-- C2 (witness): the tesla scaling at the concrete pole query on `tableB`,
whose raw nanotesla vector is `(0, 0, -2)`. -/
theorem igrf_query_tesla_scaling_witness :
    updatePositionAndMag tableB poleEpoch polePosition = .ok (0, 0, -2) ∧
      Igrf.call tableB poleEpoch polePosition =
        .ok (scaleVec nanotesla_to_tesla (0, 0, -2)) :=
  ⟨updatePositionAndMag_tableB,
   igrf_query_tesla_scaling tableB poleEpoch polePosition (0, 0, -2)
     updatePositionAndMag_tableB⟩

end GeoMag
